import Mathlib

/-!
Shallow embedding of `src/train.py` (a single training-orchestration script)
and verification of its specified behaviour.

The script's own logic is: configuration assembly from command-line arguments
and environment variables, dataset loading, model acquisition, delegation to an
external trainer with a metrics callback, and persistence of evaluation results.
External library calls (`sklearn` metrics, `numpy` argmax, Python `float` and
`int` coercion, `argparse` defaults read from `os.environ`) are modelled by
Lean functions faithful to their documented behaviour, since those libraries
are not part of this repository's source.
-/

/-- Mirrors the argument of the metrics callback in `train.py`:
`predictions` is the logits matrix (one row of class scores per example) and
`label_ids` is the vector of true labels. -/
structure EvalPrediction where
  predictions : List (List ℚ)
  label_ids : List Nat
  deriving Repr, DecidableEq

/-- Helper for `argmax`: scans the remaining scores, keeping the index and value
of the best score so far; a later score replaces the current best only when it
is strictly larger, so the first occurrence of the maximum wins, exactly as in
`numpy.argmax`. `i` is the index of the head of the remaining list. -/
def argmaxGo (bestIdx : Nat) (bestVal : ℚ) (i : Nat) : List ℚ → Nat
  | [] => bestIdx
  | x :: xs => if bestVal < x then argmaxGo i x (i + 1) xs else argmaxGo bestIdx bestVal (i + 1) xs

/-- Models `numpy` `argmax` over one row of logits (`pred.predictions.argmax(-1)`
applied per example): the index of the first maximal element. -/
def argmax : List ℚ → Nat
  | [] => 0
  | x :: xs => argmaxGo 0 x 1 xs

/-- True positives for positive class `1`: pairs where label and prediction are both `1`. -/
def tpCount (labels preds : List Nat) : Nat :=
  (labels.zip preds).countP fun p => p.1 == 1 && p.2 == 1

/-- False positives for positive class `1`: predicted `1`, label not `1`. -/
def fpCount (labels preds : List Nat) : Nat :=
  (labels.zip preds).countP fun p => !(p.1 == 1) && p.2 == 1

/-- False negatives for positive class `1`: label `1`, predicted not `1`. -/
def fnCount (labels preds : List Nat) : Nat :=
  (labels.zip preds).countP fun p => p.1 == 1 && !(p.2 == 1)

/-- Models `sklearn.metrics.precision_recall_fscore_support(labels, preds,
average="binary")` as called at `train.py:73`: precision, recall and F1 for the
positive class `1` (sklearn's default `pos_label`), each taking the value `0`
when its denominator is zero (sklearn's default `zero_division` behaviour
returns `0.0` instead of raising), together with the positive-class support. -/
def precision_recall_fscore_support (labels preds : List Nat) : ℚ × ℚ × ℚ × Nat :=
  let tp := tpCount labels preds
  let fp := fpCount labels preds
  let fn := fnCount labels preds
  let prec : ℚ := if tp + fp = 0 then 0 else (tp : ℚ) / ((tp + fp : Nat) : ℚ)
  let rcl : ℚ := if tp + fn = 0 then 0 else (tp : ℚ) / ((tp + fn : Nat) : ℚ)
  let f1 : ℚ := if prec + rcl = 0 then 0 else 2 * prec * rcl / (prec + rcl)
  (prec, rcl, f1, labels.countP fun x => x == 1)

/-- Models `sklearn.metrics.accuracy_score(labels, preds)` as called at
`train.py:74`: the fraction of positions where the prediction equals the label. -/
def accuracy_score (labels preds : List Nat) : ℚ :=
  if labels.length = 0 then 0
  else ((labels.zip preds).countP (fun p => p.1 == p.2) : ℚ) / (labels.length : ℚ)

/-- Embedding of `compute_metrics` (`train.py:70-75`): reduce each row of
logits to a predicted class by `argmax`, compute binary-averaged
precision/recall/F1 and accuracy, and return the four named scalars. -/
def compute_metrics (pred : EvalPrediction) : List (String × ℚ) :=
  let labels := pred.label_ids
  let preds := pred.predictions.map argmax
  let prf := precision_recall_fscore_support labels preds
  let acc := accuracy_score labels preds
  [("accuracy", acc), ("f1", prf.2.2.1), ("precision", prf.1), ("recall", prf.2.1)]

/-- Reference binary-averaged precision, written from the spec's wording
("treats one class label as positive and computes the metric with respect to
that class only", positive class `1`): among the examples predicted positive,
the fraction whose true label is also positive; `0` when no example is
predicted positive. -/
def refBinaryPrecision (labels preds : List Nat) : ℚ :=
  let predPos := (labels.zip preds).filter fun p => p.2 == 1
  if predPos.length = 0 then 0
  else ((predPos.filter fun p => p.1 == 1).length : ℚ) / (predPos.length : ℚ)

/-- Reference binary-averaged recall, written from the spec's wording: among
the examples whose true label is positive, the fraction predicted positive;
`0` when no true label is positive. -/
def refBinaryRecall (labels preds : List Nat) : ℚ :=
  let actPos := (labels.zip preds).filter fun p => p.1 == 1
  if actPos.length = 0 then 0
  else ((actPos.filter fun p => p.2 == 1).length : ℚ) / (actPos.length : ℚ)

/-- Reference binary-averaged F1: harmonic mean of the reference precision and
recall, `0` when both are `0`. -/
def refBinaryF1 (labels preds : List Nat) : ℚ :=
  let p := refBinaryPrecision labels preds
  let r := refBinaryRecall labels preds
  if p + r = 0 then 0 else 2 * p * r / (p + r)

/-! ## Numeric string coercion (Python `int()` / `float()`) -/

/-- Consume an optional leading sign, returning the sign as `1` or `-1`. -/
def signSplit : List Char → Int × List Char
  | [] => (1, [])
  | c :: cs => if c = '+' then (1, cs) else if c = '-' then (-1, cs) else (1, c :: cs)

/-- Split a character list at the first character satisfying `p`; the second
component is `none` when no such character occurs. -/
def splitOn (p : Char → Bool) : List Char → List Char × Option (List Char)
  | [] => ([], none)
  | c :: cs =>
    if p c then ([], some cs)
    else
      let r := splitOn p cs
      (c :: r.1, r.2)

/-- Numeric value of a decimal digit string. -/
def digitsToNat (cs : List Char) : Nat :=
  cs.foldl (fun acc c => acc * 10 + (c.toNat - 48)) 0

/-- All characters are decimal digits. -/
def allDigits (cs : List Char) : Bool :=
  cs.all Char.isDigit

/-- Rational value of `sgn * intPart.fracPart * 10 ^ e`. -/
def decimalVal (sgn : Int) (intPart fracPart : List Char) (e : Int) : ℚ :=
  (sgn : ℚ) * ((digitsToNat intPart : ℚ) + (digitsToNat fracPart : ℚ) / 10 ^ fracPart.length)
    * (10 : ℚ) ^ e

/-- Models Python `float(s)` on numeric literals, as applied to
`args.learning_rate` at `train.py:93`: an optional sign, a mantissa of digits
with an optional decimal point (at least one digit required), and an optional
exponent introduced by `e`/`E` with an optional sign and at least one digit.
Returns `none` exactly when Python raises `ValueError`. -/
def pyFloat? (s : String) : Option ℚ :=
  let (sgn, cs) := signSplit s.toList
  let (mant, expPart) := splitOn (fun c => c == 'e' || c == 'E') cs
  let (ip, fpOpt) := splitOn (fun c => c == '.') mant
  let fracs := fpOpt.getD []
  if allDigits ip && allDigits fracs && !(ip.isEmpty && fracs.isEmpty) then
    match expPart with
    | none => some (decimalVal sgn ip fracs 0)
    | some ecs =>
      let (esgn, ed) := signSplit ecs
      if allDigits ed && !ed.isEmpty then
        some (decimalVal sgn ip fracs (esgn * (digitsToNat ed : Int)))
      else none
  else none

/-- Models Python `int(s)` as used by `argparse` for `type=int` arguments:
an optional sign followed by at least one digit. -/
def pyInt? (s : String) : Option Int :=
  let (sgn, cs) := signSplit s.toList
  if allDigits cs && !cs.isEmpty then some (sgn * (digitsToNat cs : Int)) else none

/-! ## Configuration assembly and run stages (`train.py:28-121`) -/

/-- The raw command-line input: for each recognized option, the string supplied
on the command line, or `none` when the option is absent and the `argparse`
default applies. -/
structure CLI where
  epochs : Option String := none
  train_batch_size : Option String := none
  eval_batch_size : Option String := none
  warmup_steps : Option String := none
  model_name : Option String := none
  learning_rate : Option String := none
  output_data_dir : Option String := none
  model_dir : Option String := none
  n_gpus : Option String := none
  training_dir : Option String := none
  test_dir : Option String := none
  deriving Repr, DecidableEq

/-- The resolved configuration (`args` after `parse_known_args`).
`learning_rate` keeps the supplied string (`type=str`, coerced to float only at
`train.py:93`); `none` stands for the non-string default `5e-5`. -/
structure Config where
  epochs : Int
  train_batch_size : Int
  eval_batch_size : Int
  warmup_steps : Int
  model_name : Option String
  learning_rate : Option String
  output_data_dir : String
  model_dir : String
  n_gpus : String
  training_dir : String
  test_dir : String
  deriving Repr, DecidableEq

/-- The failure modes of the script visible at its own level. -/
inductive ScriptError where
  /-- `os.environ[k]` raised `KeyError` while `argparse` defaults were built. -/
  | keyError (k : String)
  /-- `argparse` failed to coerce a supplied argument to its declared type. -/
  | argTypeError (arg : String)
  /-- `load_from_disk` failed for the given directory. -/
  | datasetLoadError (dir : String)
  /-- `from_pretrained` failed to resolve the model identifier. -/
  | modelResolutionError
  /-- `float(...)` raised `ValueError` on the given string. -/
  | valueError (s : String)
  deriving Repr, DecidableEq

/-- Observable side-effecting stages of the run, in the order they occur. -/
inductive Event where
  | configured
  | loadedDataset (dir : String)
  | loadedModel
  | builtTrainingArgs
  | trained
  | evaluated
  | wroteEvalResults
  | savedModel
  deriving Repr, DecidableEq

/-- The five environment variables read eagerly (no fallback) as `argparse`
defaults at `train.py:41-45`, in source order. -/
def requiredEnvKeys : List String :=
  ["SM_OUTPUT_DATA_DIR", "SM_MODEL_DIR", "SM_NUM_GPUS", "SM_CHANNEL_TRAIN", "SM_CHANNEL_TEST"]

/-- `os.environ[k]`: the value when present, a `KeyError` when absent. -/
def envRequire (env : String → Option String) (k : String) : Except ScriptError String :=
  match env k with
  | some v => Except.ok v
  | none => Except.error (ScriptError.keyError k)

/-- `argparse` handling of a `type=int` option: the supplied string is coerced
with `int()`, an absent option takes the integer default. -/
def parseIntArg (name : String) (supplied : Option String) (dflt : Int) :
    Except ScriptError Int :=
  match supplied with
  | none => Except.ok dflt
  | some s =>
    match pyInt? s with
    | some n => Except.ok n
    | none => Except.error (ScriptError.argTypeError name)

/-- The eager evaluation of the five `os.environ[...]` defaults at
`train.py:41-45`, in source order, when `add_argument` runs — before and
independently of whatever the command line supplies. The first absent
variable raises its `KeyError`. -/
def envDefaults (env : String → Option String) :
    Except ScriptError (String × String × String × String × String) :=
  match env "SM_OUTPUT_DATA_DIR" with
  | none => Except.error (ScriptError.keyError "SM_OUTPUT_DATA_DIR")
  | some dOut =>
    match env "SM_MODEL_DIR" with
    | none => Except.error (ScriptError.keyError "SM_MODEL_DIR")
    | some dModel =>
      match env "SM_NUM_GPUS" with
      | none => Except.error (ScriptError.keyError "SM_NUM_GPUS")
      | some dGpus =>
        match env "SM_CHANNEL_TRAIN" with
        | none => Except.error (ScriptError.keyError "SM_CHANNEL_TRAIN")
        | some dTrain =>
          match env "SM_CHANNEL_TEST" with
          | none => Except.error (ScriptError.keyError "SM_CHANNEL_TEST")
          | some dTest => Except.ok (dOut, dModel, dGpus, dTrain, dTest)

/-- Configuration assembly (`train.py:30-47`): the five environment defaults
are evaluated eagerly when `add_argument` runs, then `parse_known_args`
coerces the supplied arguments and substitutes defaults for absent ones. -/
def assembleConfig (env : String → Option String) (cli : CLI) : Except ScriptError Config :=
  match envDefaults env with
  | Except.error e => Except.error e
  | Except.ok (dOut, dModel, dGpus, dTrain, dTest) =>
    match parseIntArg "epochs" cli.epochs 1 with
    | Except.error e => Except.error e
    | Except.ok epochs =>
      match parseIntArg "train_batch_size" cli.train_batch_size 32 with
      | Except.error e => Except.error e
      | Except.ok tbs =>
        match parseIntArg "eval_batch_size" cli.eval_batch_size 64 with
        | Except.error e => Except.error e
        | Except.ok ebs =>
          match parseIntArg "warmup_steps" cli.warmup_steps 500 with
          | Except.error e => Except.error e
          | Except.ok ws =>
            Except.ok
              { epochs := epochs, train_batch_size := tbs, eval_batch_size := ebs,
                warmup_steps := ws,
                model_name := cli.model_name, learning_rate := cli.learning_rate,
                output_data_dir := cli.output_data_dir.getD dOut,
                model_dir := cli.model_dir.getD dModel,
                n_gpus := cli.n_gpus.getD dGpus,
                training_dir := cli.training_dir.getD dTrain,
                test_dir := cli.test_dir.getD dTest }

/-- The learning rate actually passed to `TrainingArguments` (`train.py:93`):
`float(args.learning_rate)`. The absent-option default is the float `5e-5`
itself, on which `float` is the identity. -/
def lrFloat (lr : Option String) : Option ℚ :=
  match lr with
  | none => some (5 / 100000)
  | some s => pyFloat? s

/-- The parts of the outside world the run depends on: whether
`load_from_disk` succeeds on a directory and whether `from_pretrained`
resolves the model identifier. -/
structure World where
  datasetLoads : String → Bool
  modelLoads : Option String → Bool

/-- The strictly sequential run of `train.py`'s main block: configuration
assembly, then the two `load_from_disk` calls (`train.py:63-64`), then model
acquisition (`train.py:78-82`), then `TrainingArguments` construction with the
`float` coercion of the learning rate (`train.py:85-94`), then training,
evaluation and persistence. Returns the stages that completed and the error
that stopped the run, if any. -/
def runScript (w : World) (env : String → Option String) (cli : CLI) :
    List Event × Option ScriptError :=
  match assembleConfig env cli with
  | Except.error e => ([], some e)
  | Except.ok cfg =>
    if w.datasetLoads cfg.training_dir = false then
      ([Event.configured], some (ScriptError.datasetLoadError cfg.training_dir))
    else if w.datasetLoads cfg.test_dir = false then
      ([Event.configured, Event.loadedDataset cfg.training_dir],
       some (ScriptError.datasetLoadError cfg.test_dir))
    else if w.modelLoads cfg.model_name = false then
      ([Event.configured, Event.loadedDataset cfg.training_dir,
        Event.loadedDataset cfg.test_dir],
       some ScriptError.modelResolutionError)
    else
      match cfg.learning_rate with
      | some s =>
        match pyFloat? s with
        | none =>
          ([Event.configured, Event.loadedDataset cfg.training_dir,
            Event.loadedDataset cfg.test_dir, Event.loadedModel],
           some (ScriptError.valueError s))
        | some _ =>
          ([Event.configured, Event.loadedDataset cfg.training_dir,
            Event.loadedDataset cfg.test_dir, Event.loadedModel,
            Event.builtTrainingArgs, Event.trained, Event.evaluated,
            Event.wroteEvalResults, Event.savedModel], none)
      | none =>
        ([Event.configured, Event.loadedDataset cfg.training_dir,
          Event.loadedDataset cfg.test_dir, Event.loadedModel,
          Event.builtTrainingArgs, Event.trained, Event.evaluated,
          Event.wroteEvalResults, Event.savedModel], none)

/-! ## Result persistence (`train.py:115-118`) -/

/-- Python `sorted(eval_result.items())` on a dict: a stable sort of the
key/value pairs; since dict keys are unique this orders entries by key. -/
def sortPairs (l : List (String × String)) : List (String × String) :=
  List.insertionSort (fun a b => a.1 ≤ b.1) l

/-- The text written to `eval_results.txt`: one `key = value` line per entry
of the evaluation mapping, in sorted key order. -/
def renderEvalResults (eval_result : List (String × String)) : String :=
  String.join ((sortPairs eval_result).map fun kv => kv.1 ++ " = " ++ kv.2 ++ "\n")

/-- Opening `os.path.join(output_data_dir, "eval_results.txt")` with mode
`"w"` and writing the rendered lines: the file at that path is replaced
(created or truncated) with exactly the rendered content; every other path is
untouched. The filesystem is modelled as a map from path to content. -/
def persistEvalResults (fs : String → Option String) (output_data_dir : String)
    (eval_result : List (String × String)) : String → Option String :=
  fun p =>
    if p = output_data_dir ++ "/" ++ "eval_results.txt" then some (renderEvalResults eval_result)
    else fs p

/-! ## Trainable-parameter report (`train.py:12-26`) -/

/-- One entry of `model.named_parameters()`: its element count (`numel()`) and
its `requires_grad` flag. -/
structure ModelParam where
  numel : Nat
  requires_grad : Bool
  deriving Repr, DecidableEq

/-- The accumulation loop of `print_trainable_parameters` (`train.py:18-24`):
every parameter's `numel()` is added to `all_param`, and to
`trainable_params` as well when `requires_grad` is set. Returns
`(trainable_params, all_param)`. -/
def paramCounts (params : List ModelParam) : Nat × Nat :=
  params.foldl
    (fun acc p => (if p.requires_grad then acc.1 + p.numel else acc.1, acc.2 + p.numel))
    (0, 0)

/-- `print_trainable_parameters` (`train.py:12-26`): the numbers interpolated
into the printed line. The percentage `100 * trainable_params / all_param` is
Python true division of integers, which raises `ZeroDivisionError` when
`all_param = 0` (the divisor is unguarded); the exception is modelled as
`Except.error`. -/
def print_trainable_parameters (params : List ModelParam) : Except String (Nat × Nat × ℚ) :=
  let c := paramCounts params
  if c.2 = 0 then Except.error "ZeroDivisionError"
  else Except.ok (c.1, c.2, 100 * (c.1 : ℚ) / (c.2 : ℚ))

/-! ## Concrete inputs used by closed theorems -/

/-- The evaluation batch of the spec's end-to-end example: labels `[0,1,1,0]`
and logits `[[0.9,0.1],[0.2,0.8],[0.6,0.4],[0.3,0.7]]`. -/
def c6pred : EvalPrediction :=
  ⟨[[9/10, 1/10], [2/10, 8/10], [6/10, 4/10], [3/10, 7/10]], [0, 1, 1, 0]⟩

/-- A one-example batch whose prediction matches its label, with no positive
label: logits `[[1,0]]` give predicted class `0`, the true label. -/
def c7pred : EvalPrediction := ⟨[[1, 0]], [0]⟩

/-- A two-example batch with no positive predicted label and no positive true
label. -/
def c8pred : EvalPrediction := ⟨[[1, 0], [2, 0]], [0, 0]⟩

/-- A one-example batch whose prediction matches its label and whose label is
positive: logits `[[0,1]]` give predicted class `1`, the true label. -/
def c7wpred : EvalPrediction := ⟨[[0, 1]], [1]⟩

/-- An environment with every variable absent. -/
def envAbsent : String → Option String := fun _ => none

/-- An environment binding every variable to its own name. -/
def envAll : String → Option String := fun k => some k

/-- An environment missing exactly `SM_MODEL_DIR`. -/
def envNoModelDir : String → Option String :=
  fun k => if k = "SM_MODEL_DIR" then none else some k

/-- A world in which every dataset directory and model identifier loads. -/
def wAll : World := ⟨fun _ => true, fun _ => true⟩

/-- A command line supplying all five directory/GPU values. -/
def cliAllDirs : CLI :=
  { output_data_dir := some "/opt/out", model_dir := some "/opt/model", n_gpus := some "1",
    training_dir := some "/opt/train", test_dir := some "/opt/test" }

/-- A command line supplying a non-numeric learning rate. -/
def cliBadLR : CLI := { model_name := some "bert-base-uncased", learning_rate := some "abc" }

/-- The configuration resolved from `envAll` and `cliBadLR`. -/
def cfgBadLR : Config :=
  { epochs := 1, train_batch_size := 32, eval_batch_size := 64, warmup_steps := 500,
    model_name := some "bert-base-uncased", learning_rate := some "abc",
    output_data_dir := "SM_OUTPUT_DATA_DIR", model_dir := "SM_MODEL_DIR",
    n_gpus := "SM_NUM_GPUS", training_dir := "SM_CHANNEL_TRAIN", test_dir := "SM_CHANNEL_TEST" }

/-! ## Helper lemmas -/

theorem countP_and_split {α : Type} (l : List α) (f g : α → Bool) :
    l.countP (fun a => f a && g a) + l.countP (fun a => !(f a) && g a) = l.countP g := by
  induction l with
  | nil => rfl
  | cons a t ih =>
    simp only [List.countP_cons]
    cases hf : f a <;> cases hg : g a <;> simp [hf, hg] <;> omega

theorem countP_and_split_right {α : Type} (l : List α) (f g : α → Bool) :
    l.countP (fun a => f a && g a) + l.countP (fun a => f a && !(g a)) = l.countP f := by
  induction l with
  | nil => rfl
  | cons a t ih =>
    simp only [List.countP_cons]
    cases hf : f a <;> cases hg : g a <;> simp [hf, hg] <;> omega

theorem zip_self_countP (f : Nat × Nat → Bool) (l : List Nat) :
    (l.zip l).countP f = l.countP (fun x => f (x, x)) := by
  induction l with
  | nil => rfl
  | cons a t ih => simp [List.zip_cons_cons, List.countP_cons, ih]

theorem argmaxGo_spec (xs : List ℚ) :
    ∀ (bestIdx : Nat) (bestVal : ℚ) (i : Nat),
      (argmaxGo bestIdx bestVal i xs = bestIdx ∧ ∀ y ∈ xs, y ≤ bestVal)
      ∨ (∃ k, k < xs.length ∧ argmaxGo bestIdx bestVal i xs = i + k
          ∧ bestVal ≤ xs.getD k 0 ∧ ∀ y ∈ xs, y ≤ xs.getD k 0) := by
  induction xs with
  | nil => intro b v i; exact Or.inl ⟨rfl, by simp⟩
  | cons x t ih =>
    intro b v i
    by_cases h : v < x
    · have hgo : argmaxGo b v i (x :: t) = argmaxGo i x (i + 1) t := by
        simp [argmaxGo, h]
      rcases ih i x (i + 1) with ⟨he, hb⟩ | ⟨k, hk, he, hv, hb⟩
      · refine Or.inr ⟨0, by simp, ?_, ?_, ?_⟩
        · rw [hgo, he]; omega
        · simpa using le_of_lt h
        · intro y hy
          rcases List.mem_cons.mp hy with rfl | hy
          · simp
          · simpa using hb y hy
      · refine Or.inr ⟨k + 1, by simpa using Nat.succ_lt_succ hk, ?_, ?_, ?_⟩
        · rw [hgo, he]; omega
        · show v ≤ t.getD k 0
          exact le_trans (le_of_lt h) hv
        · intro y hy
          rcases List.mem_cons.mp hy with rfl | hy
          · exact hv
          · exact hb y hy
    · have hgo : argmaxGo b v i (x :: t) = argmaxGo b v (i + 1) t := by
        simp [argmaxGo, h]
      rcases ih b v (i + 1) with ⟨he, hb⟩ | ⟨k, hk, he, hv, hb⟩
      · refine Or.inl ⟨by rw [hgo, he], ?_⟩
        intro y hy
        rcases List.mem_cons.mp hy with rfl | hy
        · exact le_of_not_lt h
        · exact hb y hy
      · refine Or.inr ⟨k + 1, by simpa using Nat.succ_lt_succ hk, ?_, ?_, ?_⟩
        · rw [hgo, he]; omega
        · exact hv
        · intro y hy
          rcases List.mem_cons.mp hy with rfl | hy
          · exact le_trans (le_of_not_lt h) hv
          · exact hb y hy

theorem argmax_cons_spec (x : ℚ) (xs : List ℚ) :
    argmax (x :: xs) < (x :: xs).length
      ∧ ∀ y ∈ x :: xs, y ≤ (x :: xs).getD (argmax (x :: xs)) 0 := by
  rcases argmaxGo_spec xs 0 x 1 with ⟨he, hb⟩ | ⟨k, hk, he, hv, hb⟩
  · constructor
    · simp [argmax, he]
    · intro y hy
      rcases List.mem_cons.mp hy with rfl | hy
      · simp [argmax, he]
      · simpa [argmax, he] using hb y hy
  · have hax : argmax (x :: xs) = k + 1 := by
      simp [argmax, he]; omega
    constructor
    · simp [hax]; omega
    · have hgd : (x :: xs).getD (k + 1) 0 = xs.getD k 0 := rfl
      intro y hy
      rw [hax, hgd]
      rcases List.mem_cons.mp hy with rfl | hy
      · exact hv
      · exact hb y hy

theorem prf_precision_eq_ref (labels preds : List Nat) :
    (precision_recall_fscore_support labels preds).1 = refBinaryPrecision labels preds := by
  have hsplit := countP_and_split (labels.zip preds)
    (fun p => p.1 == 1) (fun p => p.2 == 1)
  have hlen : ((labels.zip preds).filter fun p => p.2 == 1).length
      = (labels.zip preds).countP fun p => p.2 == 1 :=
    (List.countP_eq_length_filter _ _).symm
  have hff : (((labels.zip preds).filter fun p => p.2 == 1).filter fun p => p.1 == 1).length
      = (labels.zip preds).countP fun p => p.1 == 1 && p.2 == 1 := by
    rw [List.filter_filter]
    exact (List.countP_eq_length_filter _ _).symm
  simp only [precision_recall_fscore_support, refBinaryPrecision, tpCount, fpCount]
  rw [hff, hlen, ← hsplit]

theorem prf_recall_eq_ref (labels preds : List Nat) :
    (precision_recall_fscore_support labels preds).2.1 = refBinaryRecall labels preds := by
  have hsplit := countP_and_split_right (labels.zip preds)
    (fun p => p.1 == 1) (fun p => p.2 == 1)
  have hlen : ((labels.zip preds).filter fun p => p.1 == 1).length
      = (labels.zip preds).countP fun p => p.1 == 1 :=
    (List.countP_eq_length_filter _ _).symm
  have hff : (((labels.zip preds).filter fun p => p.1 == 1).filter fun p => p.2 == 1).length
      = (labels.zip preds).countP fun p => p.1 == 1 && p.2 == 1 := by
    rw [List.filter_filter, ← List.countP_eq_length_filter]
    exact List.countP_congr fun x _ => by cases h1 : x.1 == 1 <;> cases h2 : x.2 == 1 <;>
      simp [h1, h2]
  simp only [precision_recall_fscore_support, refBinaryRecall, tpCount, fnCount]
  rw [hff, hlen, ← hsplit]

theorem prf_f1_formula (labels preds : List Nat) :
    (precision_recall_fscore_support labels preds).2.2.1
      = if (precision_recall_fscore_support labels preds).1
            + (precision_recall_fscore_support labels preds).2.1 = 0 then 0
        else 2 * (precision_recall_fscore_support labels preds).1
            * (precision_recall_fscore_support labels preds).2.1
            / ((precision_recall_fscore_support labels preds).1
                + (precision_recall_fscore_support labels preds).2.1) := rfl

theorem prf_f1_eq_ref (labels preds : List Nat) :
    (precision_recall_fscore_support labels preds).2.2.1 = refBinaryF1 labels preds := by
  rw [prf_f1_formula, prf_precision_eq_ref, prf_recall_eq_ref]
  rfl

theorem compute_metrics_lookup (pred : EvalPrediction) :
    List.lookup "accuracy" (compute_metrics pred)
        = some (accuracy_score pred.label_ids (pred.predictions.map argmax))
      ∧ List.lookup "f1" (compute_metrics pred)
        = some (precision_recall_fscore_support pred.label_ids
            (pred.predictions.map argmax)).2.2.1
      ∧ List.lookup "precision" (compute_metrics pred)
        = some (precision_recall_fscore_support pred.label_ids
            (pred.predictions.map argmax)).1
      ∧ List.lookup "recall" (compute_metrics pred)
        = some (precision_recall_fscore_support pred.label_ids
            (pred.predictions.map argmax)).2.1 := by
  refine ⟨rfl, ?_, ?_, ?_⟩ <;> simp [compute_metrics, List.lookup]

theorem accuracy_score_self (L : List Nat) (h : L ≠ []) : accuracy_score L L = 1 := by
  have hz : (L.zip L).countP (fun p => p.1 == p.2) = L.length := by
    rw [zip_self_countP]
    simp
  have hlen : L.length ≠ 0 := fun hc => h (List.length_eq_zero.mp hc)
  rw [accuracy_score, hz, if_neg hlen]
  exact div_self (Nat.cast_ne_zero.mpr hlen)

theorem tpCount_self (L : List Nat) : tpCount L L = L.count 1 := by
  rw [tpCount, zip_self_countP, List.count_eq_countP]
  exact List.countP_congr fun x _ => by cases hx : x == 1 <;> simp [hx]

theorem fpCount_self (L : List Nat) : fpCount L L = 0 := by
  rw [fpCount, zip_self_countP]
  refine List.countP_eq_zero.mpr fun a _ => ?_
  cases hx : a == 1 <;> simp [hx]

theorem fnCount_self (L : List Nat) : fnCount L L = 0 := by
  rw [fnCount, zip_self_countP]
  refine List.countP_eq_zero.mpr fun a _ => ?_
  cases hx : a == 1 <;> simp [hx]

theorem prf_self_all_one (L : List Nat) (h : 1 ∈ L) :
    (precision_recall_fscore_support L L).1 = 1
      ∧ (precision_recall_fscore_support L L).2.1 = 1
      ∧ (precision_recall_fscore_support L L).2.2.1 = 1 := by
  have htp : tpCount L L = L.count 1 := tpCount_self L
  have hfp : fpCount L L = 0 := fpCount_self L
  have hfn : fnCount L L = 0 := fnCount_self L
  have hpos : L.count 1 ≠ 0 := Nat.pos_iff_ne_zero.mp (List.count_pos_iff.mpr h)
  have hcast : ((L.count 1 : Nat) : ℚ) ≠ 0 := Nat.cast_ne_zero.mpr hpos
  have hp : (precision_recall_fscore_support L L).1 = 1 := by
    show (if tpCount L L + fpCount L L = 0 then (0:ℚ)
        else (tpCount L L : ℚ) / ((tpCount L L + fpCount L L : Nat) : ℚ)) = 1
    rw [htp, hfp, Nat.add_zero, if_neg hpos]
    exact div_self hcast
  have hr : (precision_recall_fscore_support L L).2.1 = 1 := by
    show (if tpCount L L + fnCount L L = 0 then (0:ℚ)
        else (tpCount L L : ℚ) / ((tpCount L L + fnCount L L : Nat) : ℚ)) = 1
    rw [htp, hfn, Nat.add_zero, if_neg hpos]
    exact div_self hcast
  refine ⟨hp, hr, ?_⟩
  rw [prf_f1_formula, hp, hr]
  norm_num

theorem prf_no_positives (labels preds : List Nat)
    (hl : (1 : Nat) ∉ labels) (hp : (1 : Nat) ∉ preds) :
    (precision_recall_fscore_support labels preds).1 = 0
      ∧ (precision_recall_fscore_support labels preds).2.1 = 0
      ∧ (precision_recall_fscore_support labels preds).2.2.1 = 0 := by
  have htp : tpCount labels preds = 0 := by
    refine List.countP_eq_zero.mpr fun a ha => ?_
    have h1 : a.1 ∈ labels := (List.of_mem_zip (by simpa using ha)).1
    cases hx : a.1 == 1
    · simp [hx]
    · exact absurd (by simpa using (beq_iff_eq.mp hx) ▸ h1) hl
  have hfp : fpCount labels preds = 0 := by
    refine List.countP_eq_zero.mpr fun a ha => ?_
    have h2 : a.2 ∈ preds := (List.of_mem_zip (by simpa using ha)).2
    cases hx : a.2 == 1
    · simp [hx]
    · exact absurd (by simpa using (beq_iff_eq.mp hx) ▸ h2) hp
  have hfn : fnCount labels preds = 0 := by
    refine List.countP_eq_zero.mpr fun a ha => ?_
    have h1 : a.1 ∈ labels := (List.of_mem_zip (by simpa using ha)).1
    cases hx : a.1 == 1
    · simp [hx]
    · exact absurd (by simpa using (beq_iff_eq.mp hx) ▸ h1) hl
  have hzp : (precision_recall_fscore_support labels preds).1 = 0 := by
    show (if tpCount labels preds + fpCount labels preds = 0 then (0:ℚ)
        else (tpCount labels preds : ℚ)
          / ((tpCount labels preds + fpCount labels preds : Nat) : ℚ)) = 0
    rw [htp, hfp]
    norm_num
  have hzr : (precision_recall_fscore_support labels preds).2.1 = 0 := by
    show (if tpCount labels preds + fnCount labels preds = 0 then (0:ℚ)
        else (tpCount labels preds : ℚ)
          / ((tpCount labels preds + fnCount labels preds : Nat) : ℚ)) = 0
    rw [htp, hfn]
    norm_num
  refine ⟨hzp, hzr, ?_⟩
  rw [prf_f1_formula, hzp, hzr]
  norm_num

theorem paramCounts_foldl_snd (params : List ModelParam) :
    ∀ init : Nat × Nat,
      (params.foldl
          (fun acc p => (if p.requires_grad then acc.1 + p.numel else acc.1, acc.2 + p.numel))
          init).2
        = init.2 + (params.map ModelParam.numel).sum := by
  induction params with
  | nil => intro init; simp
  | cons a t ih =>
    intro init
    rw [List.foldl_cons, ih]
    simp
    omega

theorem envDefaults_missing (env : String → Option String)
    (h : ∃ k ∈ requiredEnvKeys, env k = none) :
    ∃ k ∈ requiredEnvKeys, env k = none
      ∧ envDefaults env = Except.error (ScriptError.keyError k) := by
  cases h1 : env "SM_OUTPUT_DATA_DIR" with
  | none =>
    exact ⟨"SM_OUTPUT_DATA_DIR", by simp [requiredEnvKeys], h1, by simp [envDefaults, h1]⟩
  | some v1 =>
    cases h2 : env "SM_MODEL_DIR" with
    | none =>
      exact ⟨"SM_MODEL_DIR", by simp [requiredEnvKeys], h2, by simp [envDefaults, h1, h2]⟩
    | some v2 =>
      cases h3 : env "SM_NUM_GPUS" with
      | none =>
        exact ⟨"SM_NUM_GPUS", by simp [requiredEnvKeys], h3,
          by simp [envDefaults, h1, h2, h3]⟩
      | some v3 =>
        cases h4 : env "SM_CHANNEL_TRAIN" with
        | none =>
          exact ⟨"SM_CHANNEL_TRAIN", by simp [requiredEnvKeys], h4,
            by simp [envDefaults, h1, h2, h3, h4]⟩
        | some v4 =>
          cases h5 : env "SM_CHANNEL_TEST" with
          | none =>
            exact ⟨"SM_CHANNEL_TEST", by simp [requiredEnvKeys], h5,
              by simp [envDefaults, h1, h2, h3, h4, h5]⟩
          | some v5 =>
            exfalso
            obtain ⟨k, hk, hke⟩ := h
            simp [requiredEnvKeys] at hk
            rcases hk with rfl | rfl | rfl | rfl | rfl
            · exact Option.noConfusion (h1.symm.trans hke)
            · exact Option.noConfusion (h2.symm.trans hke)
            · exact Option.noConfusion (h3.symm.trans hke)
            · exact Option.noConfusion (h4.symm.trans hke)
            · exact Option.noConfusion (h5.symm.trans hke)

/-! ## Claim theorems -/

/-- C1: for every evaluation prediction object carrying a logits matrix and a
(non-empty) true-label vector, `compute_metrics` returns a mapping with exactly
the keys accuracy, f1, precision and recall; each example's predicted class is
the index of its maximum logit; accuracy is the fraction of examples whose
predicted class equals its true label; and precision, recall and F1 equal the
binary-averaging-policy reference computation on the predicted and true
labels. -/
theorem c1_compute_metrics_contract (pred : EvalPrediction)
    (h : pred.label_ids ≠ []) :
    (compute_metrics pred).map Prod.fst = ["accuracy", "f1", "precision", "recall"]
      ∧ List.lookup "accuracy" (compute_metrics pred)
        = some ((((pred.label_ids.zip (pred.predictions.map argmax)).countP
              fun p => p.1 == p.2 : Nat) : ℚ) / (pred.label_ids.length : ℚ))
      ∧ List.lookup "precision" (compute_metrics pred)
        = some (refBinaryPrecision pred.label_ids (pred.predictions.map argmax))
      ∧ List.lookup "recall" (compute_metrics pred)
        = some (refBinaryRecall pred.label_ids (pred.predictions.map argmax))
      ∧ List.lookup "f1" (compute_metrics pred)
        = some (refBinaryF1 pred.label_ids (pred.predictions.map argmax))
      ∧ ∀ row ∈ pred.predictions, row ≠ [] →
          argmax row < row.length ∧ ∀ y ∈ row, y ≤ row.getD (argmax row) 0 := by
  have hlk := compute_metrics_lookup pred
  have hlen : pred.label_ids.length ≠ 0 := fun hc => h (List.length_eq_zero.mp hc)
  refine ⟨rfl, ?_, ?_, ?_, ?_, ?_⟩
  · rw [hlk.1]
    simp only [accuracy_score, if_neg hlen]
  · rw [hlk.2.2.1, prf_precision_eq_ref]
  · rw [hlk.2.2.2, prf_recall_eq_ref]
  · rw [hlk.2.1, prf_f1_eq_ref]
  · intro row hrow hne
    cases row with
    | nil => exact absurd rfl hne
    | cons x xs => exact argmax_cons_spec x xs

/-- C1 witness: the contract instantiated at the concrete batch `c6pred`. -/
theorem c1_witness :
    (compute_metrics c6pred).map Prod.fst = ["accuracy", "f1", "precision", "recall"] :=
  (c1_compute_metrics_contract c6pred (by decide)).1

/-- C2: if any of the five required environment variables is absent, the run
fails during configuration assembly with that variable's `KeyError`, before any
dataset loading is attempted (the completed-stage trace is empty). -/
theorem c2_missing_env_fails_before_dataset_loading (w : World)
    (env : String → Option String) (cli : CLI)
    (h : ∃ k ∈ requiredEnvKeys, env k = none) :
    (runScript w env cli).1 = []
      ∧ ∃ k ∈ requiredEnvKeys, env k = none
          ∧ (runScript w env cli).2 = some (ScriptError.keyError k) := by
  obtain ⟨k, hk, hnone, hcfg⟩ := envDefaults_missing env h
  have hassem : assembleConfig env cli = Except.error (ScriptError.keyError k) := by
    simp [assembleConfig, hcfg]
  exact ⟨by simp [runScript, hassem], k, hk, hnone, by simp [runScript, hassem]⟩

/-- C2 witness: an environment missing exactly `SM_MODEL_DIR`, with every
value loadable and an empty command line. -/
theorem c2_witness :
    (runScript wAll envNoModelDir {}).1 = []
      ∧ ∃ k ∈ requiredEnvKeys, envNoModelDir k = none
          ∧ (runScript wAll envNoModelDir {}).2 = some (ScriptError.keyError k) :=
  c2_missing_env_fails_before_dataset_loading wAll envNoModelDir {}
    ⟨"SM_MODEL_DIR", by simp [requiredEnvKeys], by simp [envNoModelDir]⟩

/-- C3 counterexample: with all five directory/GPU values supplied on the
command line and every environment variable absent, configuration assembly
does not succeed — it fails with the `KeyError` of the first environment
default, refuting the claim that the environment is consulted only when a
value is not otherwise supplied. -/
theorem c3_counterexample :
    cliAllDirs.output_data_dir.isSome = true ∧ cliAllDirs.model_dir.isSome = true
      ∧ cliAllDirs.n_gpus.isSome = true ∧ cliAllDirs.training_dir.isSome = true
      ∧ cliAllDirs.test_dir.isSome = true
      ∧ assembleConfig envAbsent cliAllDirs
          = Except.error (ScriptError.keyError "SM_OUTPUT_DATA_DIR") :=
  ⟨rfl, rfl, rfl, rfl, rfl, rfl⟩

/-- C3 amended: the five environment variables are read unconditionally while
`argparse` defaults are assembled, so configuration assembly fails whenever
one is absent, even if all five values are supplied on the command line; when
all five are present, assembly succeeds and command-line-supplied values take
precedence over the environment values. -/
theorem c3_amended_env_read_unconditionally (env : String → Option String) (cli : CLI)
    (h1 : cli.epochs = none) (h2 : cli.train_batch_size = none)
    (h3 : cli.eval_batch_size = none) (h4 : cli.warmup_steps = none) :
    ((∃ k ∈ requiredEnvKeys, env k = none) →
        ∃ k ∈ requiredEnvKeys, env k = none
          ∧ assembleConfig env cli = Except.error (ScriptError.keyError k))
      ∧ ∀ dOut dModel dGpus dTrain dTest,
          env "SM_OUTPUT_DATA_DIR" = some dOut → env "SM_MODEL_DIR" = some dModel →
          env "SM_NUM_GPUS" = some dGpus → env "SM_CHANNEL_TRAIN" = some dTrain →
          env "SM_CHANNEL_TEST" = some dTest →
          assembleConfig env cli = Except.ok
            { epochs := 1, train_batch_size := 32, eval_batch_size := 64, warmup_steps := 500,
              model_name := cli.model_name, learning_rate := cli.learning_rate,
              output_data_dir := cli.output_data_dir.getD dOut,
              model_dir := cli.model_dir.getD dModel,
              n_gpus := cli.n_gpus.getD dGpus,
              training_dir := cli.training_dir.getD dTrain,
              test_dir := cli.test_dir.getD dTest } := by
  constructor
  · intro h
    obtain ⟨k, hk, hnone, hcfg⟩ := envDefaults_missing env h
    exact ⟨k, hk, hnone, by simp [assembleConfig, hcfg]⟩
  · intro dOut dModel dGpus dTrain dTest e1 e2 e3 e4 e5
    simp [assembleConfig, envDefaults, e1, e2, e3, e4, e5, parseIntArg, h1, h2, h3, h4]

/-- C3 witness: both halves of the amended claim at concrete inputs. -/
theorem c3_amended_witness :
    (∃ k ∈ requiredEnvKeys, envAbsent k = none
        ∧ assembleConfig envAbsent cliAllDirs = Except.error (ScriptError.keyError k))
      ∧ assembleConfig envAll cliAllDirs = Except.ok
          { epochs := 1, train_batch_size := 32, eval_batch_size := 64, warmup_steps := 500,
            model_name := cliAllDirs.model_name, learning_rate := cliAllDirs.learning_rate,
            output_data_dir := cliAllDirs.output_data_dir.getD "SM_OUTPUT_DATA_DIR",
            model_dir := cliAllDirs.model_dir.getD "SM_MODEL_DIR",
            n_gpus := cliAllDirs.n_gpus.getD "SM_NUM_GPUS",
            training_dir := cliAllDirs.training_dir.getD "SM_CHANNEL_TRAIN",
            test_dir := cliAllDirs.test_dir.getD "SM_CHANNEL_TEST" } :=
  ⟨(c3_amended_env_read_unconditionally envAbsent cliAllDirs rfl rfl rfl rfl).1
      ⟨"SM_OUTPUT_DATA_DIR", by simp [requiredEnvKeys], rfl⟩,
    (c3_amended_env_read_unconditionally envAll cliAllDirs rfl rfl rfl rfl).2
      "SM_OUTPUT_DATA_DIR" "SM_MODEL_DIR" "SM_NUM_GPUS" "SM_CHANNEL_TRAIN" "SM_CHANNEL_TEST"
      rfl rfl rfl rfl rfl⟩

/-- C4 counterexample: with a non-numeric learning-rate string, the run does
not fail during configuration assembly — both datasets are loaded and the
model acquired before the `float` coercion fails at training-arguments
construction. -/
theorem c4_counterexample :
    runScript wAll envAll cliBadLR
      = ([Event.configured, Event.loadedDataset "SM_CHANNEL_TRAIN",
          Event.loadedDataset "SM_CHANNEL_TEST", Event.loadedModel],
         some (ScriptError.valueError "abc"))
      ∧ Event.loadedDataset "SM_CHANNEL_TRAIN" ∈ (runScript wAll envAll cliBadLR).1
      ∧ Event.loadedModel ∈ (runScript wAll envAll cliBadLR).1 := by
  have h : runScript wAll envAll cliBadLR
      = ([Event.configured, Event.loadedDataset "SM_CHANNEL_TRAIN",
          Event.loadedDataset "SM_CHANNEL_TEST", Event.loadedModel],
         some (ScriptError.valueError "abc")) := rfl
  exact ⟨h, by simp [h], by simp [h]⟩

/-- C4 amended: a learning-rate string that cannot be coerced to a number
makes the run fail with the `float` type-coercion error at training-arguments
construction, after both datasets are loaded and the model is acquired (not
during configuration assembly). -/
theorem c4_amended_lr_coercion_after_loads (w : World) (env : String → Option String)
    (cli : CLI) (cfg : Config) (s : String)
    (hc : assembleConfig env cli = Except.ok cfg)
    (hlr : cfg.learning_rate = some s)
    (hbad : pyFloat? s = none)
    (hd1 : w.datasetLoads cfg.training_dir = true)
    (hd2 : w.datasetLoads cfg.test_dir = true)
    (hm : w.modelLoads cfg.model_name = true) :
    runScript w env cli
      = ([Event.configured, Event.loadedDataset cfg.training_dir,
          Event.loadedDataset cfg.test_dir, Event.loadedModel],
         some (ScriptError.valueError s)) := by
  simp [runScript, hc, hd1, hd2, hm, hlr, hbad]

/-- C4 witness: the amended claim instantiated at the concrete bad learning
rate `"abc"`. -/
theorem c4_amended_witness :
    runScript wAll envAll cliBadLR
      = ([Event.configured, Event.loadedDataset cfgBadLR.training_dir,
          Event.loadedDataset cfgBadLR.test_dir, Event.loadedModel],
         some (ScriptError.valueError "abc")) :=
  c4_amended_lr_coercion_after_loads wAll envAll cliBadLR cfgBadLR "abc"
    rfl rfl rfl rfl rfl rfl

/-- C5: after a successful run, the final evaluation mapping is written to the
fixed-name file `eval_results.txt` inside the output data directory — that
path holds exactly the rendered content and every other path is untouched
(overwrite) — as one `key = value` line per entry, with entries sorted so that
keys are in lexicographic order. -/
theorem c5_eval_results_persistence (fs : String → Option String)
    (output_data_dir : String) (eval_result : List (String × String)) :
    (∀ p, persistEvalResults fs output_data_dir eval_result p
        = if p = output_data_dir ++ "/" ++ "eval_results.txt"
          then some (renderEvalResults eval_result) else fs p)
      ∧ (sortPairs eval_result).Pairwise (fun a b => a.1 ≤ b.1)
      ∧ (sortPairs eval_result).Perm eval_result
      ∧ renderEvalResults eval_result
        = String.join ((sortPairs eval_result).map fun kv => kv.1 ++ " = " ++ kv.2 ++ "\n") := by
  refine ⟨fun p => rfl, ?_, List.perm_insertionSort _ _, rfl⟩
  haveI : IsTotal (String × String) (fun a b => a.1 ≤ b.1) := ⟨fun a b => le_total a.1 b.1⟩
  haveI : IsTrans (String × String) (fun a b => a.1 ≤ b.1) :=
    ⟨fun _ _ _ hab hbc => le_trans hab hbc⟩
  exact List.sorted_insertionSort _ _

/-- C6: on true labels `[0,1,1,0]` and logits
`[[0.9,0.1],[0.2,0.8],[0.6,0.4],[0.3,0.7]]`, the predicted classes are
`[0,1,0,1]`, accuracy is `1/2` (= 0.5), and precision, recall and F1 each
equal `1/2`, matching the reference binary-averaged computation against
positive class `1` on those predictions and labels. -/
theorem c6_end_to_end_example :
    c6pred.predictions.map argmax = [0, 1, 0, 1]
      ∧ compute_metrics c6pred
        = [("accuracy", 1/2), ("f1", 1/2), ("precision", 1/2), ("recall", 1/2)]
      ∧ refBinaryPrecision [0, 1, 1, 0] [0, 1, 0, 1] = 1/2
      ∧ refBinaryRecall [0, 1, 1, 0] [0, 1, 0, 1] = 1/2
      ∧ refBinaryF1 [0, 1, 1, 0] [0, 1, 0, 1] = 1/2 := by
  refine ⟨?_, ?_, ?_, ?_, ?_⟩ <;>
    norm_num [c6pred, compute_metrics, precision_recall_fscore_support, accuracy_score,
      tpCount, fpCount, fnCount, argmax, argmaxGo, refBinaryPrecision, refBinaryRecall,
      refBinaryF1]

/-- C7 counterexample: a non-empty batch in which every predicted class equals
its true label but no label is positive — accuracy is `1` but the
binary-averaged precision, recall and F1 are `0` (sklearn's zero-division
fallback), not `1.0` as the claim states. -/
theorem c7_counterexample :
    c7pred.predictions.map argmax = c7pred.label_ids
      ∧ c7pred.label_ids ≠ []
      ∧ List.lookup "accuracy" (compute_metrics c7pred) = some 1
      ∧ List.lookup "precision" (compute_metrics c7pred) = some 0
      ∧ List.lookup "recall" (compute_metrics c7pred) = some 0
      ∧ List.lookup "f1" (compute_metrics c7pred) = some 0
      ∧ (0 : ℚ) ≠ 1 := by
  refine ⟨?_, ?_, ?_, ?_, ?_, ?_, ?_⟩ <;>
    norm_num [c7pred, compute_metrics, precision_recall_fscore_support, accuracy_score,
      tpCount, fpCount, fnCount, argmax, argmaxGo, List.lookup] <;> rfl

/-- C7 amended: for every evaluation batch in which every predicted class
equals its true label and at least one true label is positive (class `1`),
`compute_metrics` returns accuracy, precision, recall and F1 all equal to
`1.0`; without a positive label the accuracy is still `1.0` but the three
binary metrics take the zero-division fallback `0.0`. -/
theorem c7_amended_all_correct_with_positive (pred : EvalPrediction)
    (hEq : pred.predictions.map argmax = pred.label_ids)
    (hpos : 1 ∈ pred.label_ids) :
    List.lookup "accuracy" (compute_metrics pred) = some 1
      ∧ List.lookup "precision" (compute_metrics pred) = some 1
      ∧ List.lookup "recall" (compute_metrics pred) = some 1
      ∧ List.lookup "f1" (compute_metrics pred) = some 1 := by
  have hne : pred.label_ids ≠ [] := List.ne_nil_of_mem hpos
  have hlk := compute_metrics_lookup pred
  have hprf := prf_self_all_one pred.label_ids hpos
  refine ⟨?_, ?_, ?_, ?_⟩
  · rw [hlk.1, hEq, accuracy_score_self _ hne]
  · rw [hlk.2.2.1, hEq, hprf.1]
  · rw [hlk.2.2.2, hEq, hprf.2.1]
  · rw [hlk.2.1, hEq, hprf.2.2]

/-- C7 witness: the amended claim at a concrete all-correct batch with a
positive label. -/
theorem c7_amended_witness :
    List.lookup "accuracy" (compute_metrics c7wpred) = some 1
      ∧ List.lookup "precision" (compute_metrics c7wpred) = some 1
      ∧ List.lookup "recall" (compute_metrics c7wpred) = some 1
      ∧ List.lookup "f1" (compute_metrics c7wpred) = some 1 :=
  c7_amended_all_correct_with_positive c7wpred
    (by norm_num [c7wpred, argmax, argmaxGo]) (by simp [c7wpred])

/-- C8: for every evaluation batch with zero positive predicted labels and
zero positive true labels, the binary-averaged precision, recall and F1 take
the defined fallback value `0.0` — the computation is total, with the
zero-denominator cases guarded, rather than raising a division-by-zero
error. -/
theorem c8_no_positives_fallback (pred : EvalPrediction)
    (hl : (1 : Nat) ∉ pred.label_ids)
    (hp : (1 : Nat) ∉ pred.predictions.map argmax) :
    List.lookup "precision" (compute_metrics pred) = some 0
      ∧ List.lookup "recall" (compute_metrics pred) = some 0
      ∧ List.lookup "f1" (compute_metrics pred) = some 0 := by
  have hlk := compute_metrics_lookup pred
  have hprf := prf_no_positives pred.label_ids (pred.predictions.map argmax) hl hp
  exact ⟨by rw [hlk.2.2.1, hprf.1], by rw [hlk.2.2.2, hprf.2.1], by rw [hlk.2.1, hprf.2.2]⟩

/-- C8 witness: the fallback at a concrete batch with no positive predicted
or true labels. -/
theorem c8_witness :
    List.lookup "precision" (compute_metrics c8pred) = some 0
      ∧ List.lookup "recall" (compute_metrics c8pred) = some 0
      ∧ List.lookup "f1" (compute_metrics c8pred) = some 0 :=
  c8_no_positives_fallback c8pred (by simp [c8pred])
    (by norm_num [c8pred, argmax, argmaxGo])

/-- C9: `compute_metrics` is a deterministic pure function of its input — two
invocations on identical prediction/label input return identical accuracy,
precision, recall and F1 values; no mutable state is shared across calls. -/
theorem c9_deterministic (p q : EvalPrediction) (h : p = q) :
    compute_metrics p = compute_metrics q := by rw [h]

/-- C9 witness: determinism at the concrete batch `c6pred`. -/
theorem c9_witness : compute_metrics c6pred = compute_metrics c6pred :=
  c9_deterministic c6pred c6pred rfl

/-- C10: for every model whose parameter tensors total zero elements,
`print_trainable_parameters` raises `ZeroDivisionError` — the divisor
`all_param` of the percentage `100 * trainable_params / all_param` is
unguarded. -/
theorem c10_zero_total_params_division_error (params : List ModelParam)
    (h : (params.map ModelParam.numel).sum = 0) :
    print_trainable_parameters params = Except.error "ZeroDivisionError" := by
  have h2 : (paramCounts params).2 = 0 := by
    rw [paramCounts, paramCounts_foldl_snd params (0, 0)]
    simpa using h
  simp [print_trainable_parameters, h2]

/-- C10 witness: the division error at a model with one zero-element
parameter tensor. -/
theorem c10_witness :
    print_trainable_parameters [⟨0, true⟩] = Except.error "ZeroDivisionError" :=
  c10_zero_total_params_division_error [⟨0, true⟩] (by simp)
